import Mathlib

/-!
Verification of the Singularity container construction engine
(`container.go`): a shallow embedding of the mount flag handling, the
generic and image mounters, session layout selection, the credential
discipline of the direct mounter, and the per-concern mount planning
functions, together with theorems settling the specification's claims.

Components that live outside the engine source (the mount-plan package,
the loop package constants, the user database) are modelled from the
specification where a claim needs them; each such definition carries a
doc comment saying so.
-/

/-- Linux mount(2) flag MS_RDONLY. -/
def MS_RDONLY : Nat := 1

/-- Linux mount(2) flag MS_NOSUID. -/
def MS_NOSUID : Nat := 2

/-- Linux mount(2) flag MS_NODEV. -/
def MS_NODEV : Nat := 4

/-- Linux mount(2) flag MS_REMOUNT. -/
def MS_REMOUNT : Nat := 32

/-- Linux mount(2) flag MS_BIND. -/
def MS_BIND : Nat := 4096

/-- Linux mount(2) flag MS_REC. -/
def MS_REC : Nat := 16384

/-- Translation of Go's strings.HasPrefix(s, p): does p occur at the start of s. -/
def hasPrefixStr (s p : String) : Bool :=
  List.isPrefixOf p.data s.data

/-- Helper for goSplit: accumulates the current field (reversed) while walking the characters. -/
def splitCharAux (sep : Char) : List Char → List Char → List String
  | [], acc => [String.mk acc.reverse]
  | c :: rest, acc =>
    if c = sep then String.mk acc.reverse :: splitCharAux sep rest []
    else splitCharAux sep rest (c :: acc)

/-- Translation of Go's strings.Split(s, sep) for a one-character separator, as used with a colon by the bind-path parsing. -/
def goSplit (s : String) (sep : Char) : List String :=
  splitCharAux sep s.data []

/-- Session layer strategy chosen by setupSessionLayout: overlay, underlay, or none (the default layout). -/
inductive SessionLayer
  | overlayLayer
  | underlayLayer
  | defaultLayer
deriving DecidableEq, Fintype

/-- Translation of setupSessionLayout (src lines 133-154): writable images use the default layout; otherwise overlay when the kernel supports overlayfs, user namespaces are off and enable overlay is yes or try; otherwise underlay when enabled; otherwise the default layout. -/
def setupSessionLayout (writableImage userNS overlayFsSupported : Bool)
    (enableOverlay : String) (enableUnderlay : Bool) : SessionLayer :=
  if writableImage then SessionLayer.defaultLayer
  else if overlayFsSupported && !userNS
      && (enableOverlay == "yes" || enableOverlay == "try") then
    SessionLayer.overlayLayer
  else if enableUnderlay then SessionLayer.underlayLayer
  else SessionLayer.defaultLayer

/-- Modelled from the spec: the layout decision table of section 4.E, written as the four rules of the table. -/
def specLayerChoice (writableImage userNS overlayFsSupported : Bool)
    (enableOverlay : String) (enableUnderlay : Bool) : SessionLayer :=
  if writableImage = true then SessionLayer.defaultLayer
  else if overlayFsSupported = true ∧ userNS = false
      ∧ enableOverlay ∈ (["yes", "try"] : List String) then
    SessionLayer.overlayLayer
  else if enableUnderlay = true then SessionLayer.underlayLayer
  else SessionLayer.defaultLayer

/-- Mount plan tag, in the execution order fixed by the mount package (spec section 3). -/
inductive MountTag
  | SessionTag
  | RootfsTag
  | PreLayerTag
  | LayerTag
  | DevTag
  | HostfsTag
  | BindsTag
  | KernelTag
  | HomeTag
  | TmpTag
  | ScratchTag
  | CwdTag
  | UserbindsTag
  | FilesTag
  | OtherTag
  | FinalTag
deriving DecidableEq, Fintype

/-- Position of a tag in the fixed execution order. -/
def tagIndex : MountTag → Nat
  | .SessionTag => 0
  | .RootfsTag => 1
  | .PreLayerTag => 2
  | .LayerTag => 3
  | .DevTag => 4
  | .HostfsTag => 5
  | .BindsTag => 6
  | .KernelTag => 7
  | .HomeTag => 8
  | .TmpTag => 9
  | .ScratchTag => 10
  | .CwdTag => 11
  | .UserbindsTag => 12
  | .FilesTag => 13
  | .OtherTag => 14
  | .FinalTag => 15

/-- Tags in execution order. -/
def tagOrder : List MountTag :=
  [.SessionTag, .RootfsTag, .PreLayerTag, .LayerTag, .DevTag, .HostfsTag,
   .BindsTag, .KernelTag, .HomeTag, .TmpTag, .ScratchTag, .CwdTag,
   .UserbindsTag, .FilesTag, .OtherTag, .FinalTag]

/-- Which mounter the plan's Mount reference currently designates: the in-process direct mounter (localMount) or the RPC mounter (rpcMount). -/
inductive MounterKind
  | direct
  | rpc
deriving DecidableEq, Fintype

/-- Tag at which setupOverlayLayout registers the switchMount hook (src line 167: RunAfterTag LayerTag switchMount). -/
def setupOverlayLayoutSwitchTag : MountTag := MountTag.LayerTag

/-- Tag at which setupUnderlayLayout registers the switchMount hook (src line 177: RunAfterTag LayerTag switchMount). -/
def setupUnderlayLayoutSwitchTag : MountTag := MountTag.LayerTag

/-- Tag at which setupDefaultLayout registers the switchMount hook (src line 187: RunAfterTag RootfsTag switchMount). -/
def setupDefaultLayoutSwitchTag : MountTag := MountTag.RootfsTag

/-- Tag at which the chosen layout's setup function registers the switchMount hook. -/
def switchTagOf : SessionLayer → MountTag
  | SessionLayer.overlayLayer => setupOverlayLayoutSwitchTag
  | SessionLayer.underlayLayer => setupUnderlayLayoutSwitchTag
  | SessionLayer.defaultLayer => setupDefaultLayoutSwitchTag

/-- Helper for mountAllTrace: walks the remaining tags with the current mounter, recording which mounter serves each tag's points, and applies the switchMount hook (src lines 233-236, which sets system.Mount to rpcMount) after the tag it is registered at. -/
def mountAllTraceGo (switchAfter : MountTag) : List MountTag → MounterKind → List (MountTag × MounterKind)
  | [], _ => []
  | t :: rest, m =>
    (t, m) :: mountAllTraceGo switchAfter rest (if t = switchAfter then MounterKind.rpc else m)

/-- Modelled from the spec: MountAll iterates tags in the fixed order and hooks registered for a tag fire after all points of that tag are mounted and before the next tag begins; the plan starts with the direct mounter (src line 65) and the only mounter-changing hook is switchMount, registered at the given tag. The trace records, per tag, the mounter that serves its points. -/
def mountAllTrace (switchAfter : MountTag) : List (MountTag × MounterKind) :=
  mountAllTraceGo switchAfter tagOrder MounterKind.direct

/-- Host and kernel state seen by the mounter: which paths os.Stat finds, and the result of the underlying mount(2) or RPC Mount call when it is reached (none means the call succeeds). -/
structure HostState where
  existing : List String
  mountErr : Option String
deriving DecidableEq

/-- Does os.Stat succeed on the path (the negation models os.IsNotExist). -/
def pathExists (hs : HostState) (p : String) : Bool :=
  hs.existing.any (fun q => decide (q = p))

/-- Session paths used by mountGeneric: c.session.Path() and c.session.FinalPath(). -/
structure SessionPaths where
  path : String
  finalPath : String
deriving DecidableEq

/-- Result of mountGeneric: whether the underlying mount(2)/RPC Mount call was reached, and the error value mountGeneric returns (none is Go's nil). -/
structure GenericResult where
  attempted : Bool
  err : Option String
deriving DecidableEq

/-- Translation of mountGeneric (src lines 239-281): a bind that is not a remount is silently skipped when its host source is missing; a destination not starting with the session path is reinterpreted under the session's final path and silently skipped when missing; a destination inside the session path that is missing yields an error; otherwise the mount call is performed and its error returned. The flags argument is the result of ConvertOptions on the point's options. -/
def mountGeneric (hs : HostState) (sp : SessionPaths) (flags : Nat) (src dst : String) :
    GenericResult :=
  if flags &&& MS_BIND ≠ 0 ∧ flags &&& MS_REMOUNT = 0 ∧ pathExists hs src = false then
    { attempted := false, err := none }
  else if hasPrefixStr dst sp.path = false then
    if pathExists hs (sp.finalPath ++ dst) = false then
      { attempted := false, err := none }
    else
      { attempted := true, err := hs.mountErr }
  else
    if pathExists hs dst = false then
      { attempted := false, err := some ("destination " ++ dst ++ " does not exist") }
    else
      { attempted := true, err := hs.mountErr }

/-- One planned mount point as the mounters see it: source, destination, and the kernel flags converted from its options. -/
structure MountPoint where
  source : String
  destination : String
  flags : Nat
deriving DecidableEq

/-- Error filtering shared by localMount (src lines 209-216) and rpcMount (src lines 222-229): an error from mountGeneric is propagated only when the point's flags carry MS_REMOUNT; otherwise it is logged at verbose level and dropped. -/
def mountErrorFilter (flags : Nat) (dst : String) (r : GenericResult) : Option String :=
  match r.err with
  | none => none
  | some e =>
    if flags &&& MS_REMOUNT ≠ 0 then some ("cannot remount " ++ dst ++ ": " ++ e)
    else none

/-- Error returned by localMount for a non-loop point (src lines 209-218), after the credential swap modelled separately by localMountCreds. -/
def localMountPoint (hs : HostState) (sp : SessionPaths) (p : MountPoint) : Option String :=
  mountErrorFilter p.flags p.destination (mountGeneric hs sp p.flags p.source p.destination)

/-- Error returned by rpcMount (src lines 221-231); the filtering logic is the same as localMount's, with the mount delegated over RPC. -/
def rpcMountPoint (hs : HostState) (sp : SessionPaths) (p : MountPoint) : Option String :=
  mountErrorFilter p.flags p.destination (mountGeneric hs sp p.flags p.source p.destination)

/-- Modelled from the spec: MountAll mounts every point via the current mounter and any error aborts the whole plan and propagates; the result is the first mounter error, or none when the plan completes. -/
def mountAllResult (mounter : MountPoint → Option String) : List MountPoint → Option String
  | [] => none
  | p :: rest =>
    match mounter p with
    | some e => some e
    | none => mountAllResult mounter rest

/-- Example host state for the mounter theorems: the bind source /src and the session destination /session/ok exist, and the underlying mount call fails with EPERM. -/
def hsEx : HostState := { existing := ["/src", "/session/ok"], mountErr := some "EPERM" }

/-- Example session paths for the mounter theorems. -/
def spEx : SessionPaths := { path := "/session", finalPath := "/session/final" }

/-- Process credentials: real, effective, saved and filesystem UIDs. -/
structure Cred where
  ruid : Nat
  euid : Nat
  suid : Nat
  fsuid : Nat
deriving DecidableEq

/-- Model of setresuid(2): sets the real, effective and saved UIDs; the kernel also sets the filesystem UID to the new effective UID. -/
def setresuid (_c : Cred) (r e s : Nat) : Cred :=
  { ruid := r, euid := e, suid := s, fsuid := e }

/-- Model of setfsuid(2): sets only the filesystem UID. -/
def setfsuid (c : Cred) (f : Nat) : Cred :=
  { c with fsuid := f }

/-- Outcome of one localMount call as far as credentials are concerned: the credentials in effect while the filesystem-touching body runs (none when the body is never reached), the credentials after localMount returns, and the error localMount returns (the body's own result when the credential calls succeed). -/
structure LocalMountCredRun where
  during : Option Cred
  final : Cred
  result : Option String
deriving DecidableEq

/-- Translation of the credential discipline of localMount (src lines 190-202): with user namespaces no credential call is made; otherwise setresuid(uid, 0, uid) runs first (failure returns an error with credentials untouched), a deferred setresuid(uid, uid, 0) is registered for every later return path, and setfsuid(uid) runs before the body (failure returns an error). uid is os.Getuid(), the real UID; okResuid and okFsuid say whether the respective syscalls succeed; bodyErr is the abstracted result of the filesystem-touching body. -/
def localMountCreds (userNS : Bool) (okResuid okFsuid : Bool) (bodyErr : Option String)
    (c0 : Cred) : LocalMountCredRun :=
  if userNS then { during := some c0, final := c0, result := bodyErr }
  else
    let uid := c0.ruid
    if okResuid = false then
      { during := none, final := c0, result := some "failed to elevate privileges" }
    else
      let c1 := setresuid c0 uid 0 uid
      if okFsuid = false then
        { during := none, final := setresuid c1 uid uid 0,
          result := some "failed to set FS uid" }
      else
        let c2 := setfsuid c1 uid
        { during := some c2, final := setresuid c2 uid uid 0, result := bodyErr }

/-- Modelled from the spec: the loop package's FlagsAutoClear constant, mirroring the Linux loop ABI value LO_FLAGS_AUTOCLEAR. -/
def FlagsAutoClear : Nat := 4

/-- Modelled from the spec: the loop package's FlagsReadOnly constant, mirroring the Linux loop ABI value LO_FLAGS_READ_ONLY. -/
def FlagsReadOnly : Nat := 1

/-- Go os.O_RDONLY. -/
def O_RDONLY : Nat := 0

/-- Go os.O_RDWR. -/
def O_RDWR : Nat := 2

/-- Loop device Info64 structure fields set by mountImage. -/
structure Info64 where
  offset : Nat
  sizeLimit : Nat
  flags : Nat
deriving DecidableEq

/-- Loop device configuration produced by mountImage: the Info64 passed to LOOP_SET_STATUS64 and the open flag used to attach the image file. -/
structure ImageMountSetup where
  info : Info64
  attachFlag : Nat
deriving DecidableEq

/-- Translation of the loop-device setup in mountImage (src lines 284-310): the attach flag starts as O_RDWR and the loop flags as FlagsAutoClear; when the converted mount flags satisfy the literal test flags AND MS_RDONLY == 1, FlagsReadOnly is OR'd in and the file is attached O_RDONLY. -/
def mountImageSetup (flags offset sizelimit : Nat) : ImageMountSetup :=
  let attachFlag := O_RDWR
  let loopFlags := FlagsAutoClear
  if flags &&& MS_RDONLY = 1 then
    { info := { offset := offset, sizeLimit := sizelimit, flags := loopFlags ||| FlagsReadOnly },
      attachFlag := O_RDONLY }
  else
    { info := { offset := offset, sizeLimit := sizelimit, flags := loopFlags },
      attachFlag := attachFlag }

/-- Configuration consulted by the guard section of addHomeMount: the no-home request, the mount-home administrator switch, the password-database home of the real UID (none models a failed lookup), the requested home source GetHome(), and the user-bind-control switch. -/
structure HomeConfig where
  noHome : Bool
  mountHome : Bool
  pwDir : Option String
  home : String
  userBindControl : Bool
deriving DecidableEq

/-- Translation of the guard section of addHomeMount (src lines 811-836): a no-home request or a disabled mount-home switch skips the concern; a failed password lookup is an error; a requested home differing from the password-database home (customHome) without user-bind-control is an error; otherwise the concern continues with the staging logic abstracted as rest. -/
def addHomeMountGate (cfg : HomeConfig) (rest : Except String Unit) : Except String Unit :=
  if cfg.noHome then Except.ok ()
  else if cfg.mountHome = false then Except.ok ()
  else
    match cfg.pwDir with
    | none => Except.error "failed to retrieve user information"
    | some d =>
      if d ≠ cfg.home ∧ cfg.userBindControl = false then
        Except.error "Not mounting user requested home: user bind control is disallowed"
      else rest

/-- Runs a list of concern steps in order, stopping at the first error (each step models one early-returning call in create). -/
def runSteps : List (Except String Unit) → Except String Unit
  | [] => Except.ok ()
  | Except.error e :: _ => Except.error e
  | Except.ok () :: rest => runSteps rest

/-- Translation of the sequencing of create (src lines 43-127): the concern steps before addHomeMount, the addHomeMount step, the steps after it, and finally MountAll, each aborting the run on error. Returns the overall result and whether MountAll was executed. -/
def createRun (pre : List (Except String Unit)) (homeStep : Except String Unit)
    (post : List (Except String Unit)) (mountAllStep : Except String Unit) :
    Except String Unit × Bool :=
  match runSteps pre with
  | Except.error e => (Except.error e, false)
  | Except.ok () =>
    match homeStep with
    | Except.error e => (Except.error e, false)
    | Except.ok () =>
      match runSteps post with
      | Except.error e => (Except.error e, false)
      | Except.ok () => (mountAllStep, true)

/-- Result of Go's os.Stat as loadImage consumes it: only the directory bit matters. -/
structure GoFileInfo where
  isDir : Bool
deriving DecidableEq

/-- Writable flag that loadImage (src lines 333-344) passes to image.Init: stat the path, force writable to false when it is a directory; none models a stat failure, on which loadImage returns the error before calling Init. -/
def loadImageInitWritable (statResult : Option GoFileInfo) (writable : Bool) : Option Bool :=
  match statResult with
  | none => none
  | some fi => some (if fi.isDir then false else writable)

/-- One bind mount point registered by AddBind in addUserbindsMount: source, destination and the flags value at registration time. -/
structure BindRecord where
  src : String
  dst : String
  flags : Nat
deriving DecidableEq

/-- Initial flags of addUserbindsMount (src line 889), declared once outside the entry loop. -/
def userbindsFlags : Nat := MS_BIND ||| MS_NOSUID ||| MS_NODEV ||| MS_REC

/-- Translation of one iteration of the addUserbindsMount entry loop (src lines 901-926): the entry is split on colons; a failed filepath.Abs on the source warns and skips the entry without touching flags; the destination defaults to the source; a third field equal to ro ORs MS_RDONLY into the shared flags variable, while any other third field besides rw only prints a warning — the entry is still added. Returns the updated flags variable and the bind record passed to AddBind, if any (the paired AddRemount registration is omitted; the claims concern the bind points). -/
def processUserbind (abs : String → Option String) (flags : Nat) (b : String) :
    Nat × Option BindRecord :=
  match abs ((goSplit b ':').headD "") with
  | none => (flags, none)
  | some src =>
    if (goSplit b ':').length > 2 ∧ (goSplit b ':').getD 2 "" = "ro" then
      (flags ||| MS_RDONLY,
       some { src := src, dst := (goSplit b ':').getD 1 src,
              flags := flags ||| MS_RDONLY })
    else
      (flags, some { src := src, dst := (goSplit b ':').getD 1 src, flags := flags })

/-- Entry loop of addUserbindsMount: processes the entries in order, threading the shared flags variable. -/
def addUserbindsLoop (abs : String → Option String) (flags : Nat) :
    List String → List BindRecord
  | [] => []
  | b :: rest =>
    match processUserbind abs flags b with
    | (flags2, none) => addUserbindsLoop abs flags2 rest
    | (flags2, some r) => r :: addUserbindsLoop abs flags2 rest

/-- Value of the shared flags variable after the entry loop has processed the given entries. -/
def flagsAfterUserbinds (abs : String → Option String) (flags : Nat) :
    List String → Nat
  | [] => flags
  | b :: rest => flagsAfterUserbinds abs (processUserbind abs flags b).1 rest

/-- Translation of addUserbindsMount (src lines 888-928): nothing is registered when the bind list is empty or user bind control is disabled; otherwise the entry loop runs with the initial flags. -/
def addUserbindsMount (abs : String → Option String) (userBindControl : Bool)
    (binds : List String) : List BindRecord :=
  if binds.length = 0 then []
  else if userBindControl = false then []
  else addUserbindsLoop abs userbindsFlags binds

/-- One planned mount point as localMount receives it, including the offset internal option whose presence (GetOffset succeeding, src line 204) routes the point to mountImage instead of mountGeneric. -/
structure FullMountPoint where
  source : String
  destination : String
  flags : Nat
  offset : Option Nat
deriving DecidableEq

/-- Translation of the error behavior of mountImage (src lines 284-331) once an offset is present: setupErr abstracts a failure of GetSizeLimit, loop Attach or SetStatus (src lines 293-296 and 316-321), whose error is returned as is; otherwise the mount(2) call at line 325 runs and its failure is wrapped as a failed-to-mount error for the filesystem type. -/
def mountImageErr (hs : HostState) (setupErr : Option String) (fstype : String) :
    Option String :=
  match setupErr with
  | some e => some e
  | none =>
    match hs.mountErr with
    | none => none
    | some e => some ("failed to mount " ++ fstype ++ " filesystem: " ++ e)

/-- Translation of the dispatch of localMount after the credential swap (src lines 204-218): a point whose internal options carry an offset goes to mountImage, and any mountImage error is wrapped as a can't-mount-image error and propagated whatever the flags (src lines 205-207); every other point goes through mountGeneric with the remount-only error filter of lines 209-216. -/
def localMount (hs : HostState) (sp : SessionPaths) (setupErr : Option String)
    (fstype : String) (p : FullMountPoint) : Option String :=
  match p.offset with
  | some _ =>
    match mountImageErr hs setupErr fstype with
    | none => none
    | some e => some ("can't mount image " ++ p.source ++ ": " ++ e)
  | none =>
    mountErrorFilter p.flags p.destination
      (mountGeneric hs sp p.flags p.source p.destination)

/-- C2: for every configuration tuple (writable-image, user-ns, overlay-kernel-supported, enable-overlay, enable-underlay), the session layout chosen by setupSessionLayout is the one given by the specification's decision table. -/
theorem setupSessionLayout_matches_spec_table (w u o : Bool) (eo : String) (eu : Bool) :
    setupSessionLayout w u o eo eu = specLayerChoice w u o eo eu := by
  unfold setupSessionLayout specLayerChoice
  by_cases h1 : eo = "yes" <;> by_cases h2 : eo = "try" <;>
    cases w <;> cases u <;> cases o <;> cases eu <;>
      simp [h1, h2]

/-- C3: the plan's mounter reference is switched from the direct mounter to the RPC mounter by the switchMount after-tag hook, registered at RootfsTag for the default (None) layout and at LayerTag for the Overlay and Underlay layouts; in the MountAll trace the direct mounter serves every tag up to and including the hook's tag (the switch never occurs before the hook fires) and the RPC mounter serves every later tag. -/
theorem switchMount_hook_placement :
    ∀ (L : SessionLayer) (t : MountTag) (m : MounterKind),
      switchTagOf L =
        (if L = SessionLayer.defaultLayer then MountTag.RootfsTag else MountTag.LayerTag)
      ∧ ((t, m) ∈ mountAllTrace (switchTagOf L) →
          (tagIndex t ≤ tagIndex (switchTagOf L) → m = MounterKind.direct)
          ∧ (tagIndex (switchTagOf L) < tagIndex t → m = MounterKind.rpc)) := by
  decide

/-- Witness for C3: in the overlay layout, the LayerTag points are still served by the direct mounter. -/
theorem switchMount_hook_placement_witness :
    ((MountTag.LayerTag, MounterKind.direct) ∈ mountAllTrace (switchTagOf SessionLayer.overlayLayer))
    ∧ MounterKind.direct = MounterKind.direct :=
  ⟨by decide,
   ((switchMount_hook_placement SessionLayer.overlayLayer MountTag.LayerTag MounterKind.direct).2
      (by decide)).1 (by decide)⟩

/-- Counterexample for C1: for a non-remount bind whose destination is inside the session path but missing, mountGeneric does return an error, yet localMount drops it (the point is not a remount), so MountAll completes without aborting. -/
theorem mountGeneric_session_dest_missing_does_not_abort :
    (mountGeneric hsEx spEx MS_BIND "/src" "/session/missing").err.isSome = true
    ∧ mountAllResult (localMountPoint hsEx spEx)
        [{ source := "/src", destination := "/session/missing", flags := MS_BIND }] = none := by
  decide

/-- C1 amended: a bind (MS_BIND set, MS_REMOUNT clear) whose host source is missing is skipped with no error; a point whose destination does not begin with the session path and whose destination under the session's final path is missing is skipped with no error; a point whose destination begins with the session path but is missing (the bind-source skip not applying) makes mountGeneric return an error, which localMount propagates — aborting MountAll — only when the point carries MS_REMOUNT, and otherwise logs and drops. -/
theorem mountGeneric_skip_and_error_policy (hs : HostState) (sp : SessionPaths)
    (flags : Nat) (src dst : String) :
    (flags &&& MS_BIND ≠ 0 → flags &&& MS_REMOUNT = 0 → pathExists hs src = false →
        mountGeneric hs sp flags src dst = { attempted := false, err := none })
    ∧ (hasPrefixStr dst sp.path = false → pathExists hs (sp.finalPath ++ dst) = false →
        mountGeneric hs sp flags src dst = { attempted := false, err := none })
    ∧ ((flags &&& MS_BIND = 0 ∨ flags &&& MS_REMOUNT ≠ 0 ∨ pathExists hs src = true) →
        hasPrefixStr dst sp.path = true → pathExists hs dst = false →
        (mountGeneric hs sp flags src dst).err.isSome = true
        ∧ (flags &&& MS_REMOUNT = 0 →
            localMountPoint hs sp { source := src, destination := dst, flags := flags } = none)
        ∧ (flags &&& MS_REMOUNT ≠ 0 →
            (localMountPoint hs sp
              { source := src, destination := dst, flags := flags }).isSome = true)) := by
  refine ⟨?_, ?_, ?_⟩
  · intro h1 h2 h3
    unfold mountGeneric
    rw [if_pos ⟨h1, h2, h3⟩]
  · intro h1 h2
    unfold mountGeneric
    by_cases hA : flags &&& MS_BIND ≠ 0 ∧ flags &&& MS_REMOUNT = 0 ∧ pathExists hs src = false
    · rw [if_pos hA]
    · rw [if_neg hA, if_pos h1, if_pos h2]
  · intro hyp hpre hne
    have hA : ¬(flags &&& MS_BIND ≠ 0 ∧ flags &&& MS_REMOUNT = 0 ∧ pathExists hs src = false) := by
      rcases hyp with h | h | h
      · exact fun hc => hc.1 h
      · exact fun hc => h hc.2.1
      · exact fun hc => by rw [h] at hc; simp at hc
    have hB : ¬(hasPrefixStr dst sp.path = false) := by
      simp [hpre]
    have hres : mountGeneric hs sp flags src dst =
        { attempted := false, err := some ("destination " ++ dst ++ " does not exist") } := by
      unfold mountGeneric
      rw [if_neg hA, if_neg hB, if_pos hne]
    refine ⟨by rw [hres]; rfl, ?_, ?_⟩
    · intro hrem
      unfold localMountPoint
      rw [hres]
      unfold mountErrorFilter
      simp [hrem]
    · intro hrem
      unfold localMountPoint
      rw [hres]
      unfold mountErrorFilter
      simp [hrem]

/-- Witness for C1: the three branches of the amended policy evaluated on concrete points over the example host state. -/
theorem mountGeneric_skip_and_error_policy_witness :
    mountGeneric hsEx spEx MS_BIND "/absent" "/x" = { attempted := false, err := none }
    ∧ mountGeneric hsEx spEx MS_BIND "/src" "/outside" = { attempted := false, err := none }
    ∧ (mountGeneric hsEx spEx (MS_BIND ||| MS_REMOUNT) "/src" "/session/missing").err.isSome = true
    ∧ (localMountPoint hsEx spEx
        { source := "/src", destination := "/session/missing",
          flags := MS_BIND ||| MS_REMOUNT }).isSome = true :=
  ⟨(mountGeneric_skip_and_error_policy hsEx spEx MS_BIND "/absent" "/x").1
      (by decide) (by decide) (by decide),
   (mountGeneric_skip_and_error_policy hsEx spEx MS_BIND "/src" "/outside").2.1
      (by decide) (by decide),
   ((mountGeneric_skip_and_error_policy hsEx spEx (MS_BIND ||| MS_REMOUNT) "/src"
        "/session/missing").2.2 (Or.inr (Or.inl (by decide))) (by decide) (by decide)).1,
   ((mountGeneric_skip_and_error_policy hsEx spEx (MS_BIND ||| MS_REMOUNT) "/src"
        "/session/missing").2.2 (Or.inr (Or.inl (by decide))) (by decide) (by decide)).2.2
      (by decide)⟩

/-- Counterexample for C5: a mount point whose destination lies inside the session, on which the underlying mount call fails, is not fatal — localMount returns nil because the point is not a remount. -/
theorem mount_call_failure_in_session_not_fatal :
    hasPrefixStr "/session/ok" spEx.path = true
    ∧ (mountGeneric hsEx spEx MS_BIND "/src" "/session/ok").attempted = true
    ∧ hsEx.mountErr.isSome = true
    ∧ localMountPoint hsEx spEx
        { source := "/src", destination := "/session/ok", flags := MS_BIND } = none := by
  decide

/-- C5 amended: for every mount point on which the underlying mount(2) or RPC Mount call fails, the failure is always fatal when the point is loop-backed (offset internal option present: localMount propagates the mountImage failure whatever the flags), and otherwise it is fatal if and only if the point's flags carry MS_REMOUNT; whether the destination lives inside the session plays no role, and on non-loop points rpcMount filters errors exactly as localMount does. -/
theorem mount_call_failure_policy (hs : HostState) (sp : SessionPaths)
    (setupErr : Option String) (fstype : String) (p : FullMountPoint)
    (hErr : hs.mountErr.isSome = true) :
    (p.offset.isSome = true →
      (localMount hs sp setupErr fstype p).isSome = true)
    ∧ (p.offset = none →
        (mountGeneric hs sp p.flags p.source p.destination).attempted = true →
        ((localMount hs sp setupErr fstype p).isSome = true ↔
          p.flags &&& MS_REMOUNT ≠ 0))
    ∧ (p.offset = none →
        rpcMountPoint hs sp ⟨p.source, p.destination, p.flags⟩
          = localMount hs sp setupErr fstype p) := by
  obtain ⟨e, he⟩ := Option.isSome_iff_exists.mp hErr
  refine ⟨?_, ?_, ?_⟩
  · intro hoff
    obtain ⟨o, ho⟩ := Option.isSome_iff_exists.mp hoff
    unfold localMount
    rw [ho]
    unfold mountImageErr
    cases setupErr with
    | none => rw [he]; simp
    | some e2 => simp
  · intro hoff hAtt
    have herr : (mountGeneric hs sp p.flags p.source p.destination).err = hs.mountErr := by
      unfold mountGeneric at hAtt ⊢
      split_ifs at hAtt ⊢ <;> simp_all
    unfold localMount
    rw [hoff]
    change (mountErrorFilter p.flags p.destination
        (mountGeneric hs sp p.flags p.source p.destination)).isSome = true ↔ _
    unfold mountErrorFilter
    rw [herr, he]
    by_cases h : p.flags &&& MS_REMOUNT ≠ 0 <;> simp [h]
  · intro hoff
    unfold localMount rpcMountPoint
    rw [hoff]

/-- Witness for C5: over the example host state whose mount call fails, a loop-backed image point without MS_REMOUNT (the rootfs image mount) is fatal, and a remount point inside the session is fatal. -/
theorem mount_call_failure_policy_witness :
    (localMount hsEx spEx none "squashfs"
      { source := "/proc/self/fd/3", destination := "/session/rootfs",
        flags := MS_NOSUID ||| MS_NODEV ||| MS_RDONLY, offset := some 32 }).isSome = true
    ∧ (localMount hsEx spEx none "squashfs"
      { source := "/src", destination := "/session/ok",
        flags := MS_BIND ||| MS_REMOUNT, offset := none }).isSome = true :=
  ⟨(mount_call_failure_policy hsEx spEx none "squashfs"
      { source := "/proc/self/fd/3", destination := "/session/rootfs",
        flags := MS_NOSUID ||| MS_NODEV ||| MS_RDONLY, offset := some 32 }
      (by decide)).1 (by decide),
   ((mount_call_failure_policy hsEx spEx none "squashfs"
      { source := "/src", destination := "/session/ok",
        flags := MS_BIND ||| MS_REMOUNT, offset := none }
      (by decide)).2.1 rfl (by decide)).mpr (by decide)⟩

/-- Counterexample for C4: starting as a setuid process (real UID 1000, effective UID 0), during the filesystem-touching call the effective UID is 0 (not the real UID — the real UID goes to the filesystem UID via setfsuid), and after return the effective UID is 1000 (not restored to 0). -/
theorem localMount_euid_claim_refuted :
    ¬ (((localMountCreds false true true none
          { ruid := 1000, euid := 0, suid := 0, fsuid := 0 }).during.all
            (fun d => d.euid == 1000) = true)
       ∧ (localMountCreds false true true none
          { ruid := 1000, euid := 0, suid := 0, fsuid := 0 }).final.euid = 0) := by
  decide

/-- C4 amended: with user namespaces no credential call is made; otherwise localMount performs setresuid(uid, 0, uid) and setfsuid(uid), so during the filesystem-touching call the filesystem UID is the real UID while the effective UID is 0, and the deferred setresuid(uid, uid, 0) runs on both the success and the setfsuid-failure path, leaving effective UID = real UID and saved UID = 0 (not effective UID 0); a failed credential call makes localMount return an error instead of proceeding to the body. -/
theorem localMount_cred_discipline (c0 : Cred) (bodyErr : Option String) :
    localMountCreds true true true bodyErr c0 =
      { during := some c0, final := c0, result := bodyErr }
    ∧ localMountCreds false true true bodyErr c0 =
      { during := some { ruid := c0.ruid, euid := 0, suid := c0.ruid, fsuid := c0.ruid },
        final := { ruid := c0.ruid, euid := c0.ruid, suid := 0, fsuid := c0.ruid },
        result := bodyErr }
    ∧ localMountCreds false true false bodyErr c0 =
      { during := none,
        final := { ruid := c0.ruid, euid := c0.ruid, suid := 0, fsuid := c0.ruid },
        result := some "failed to set FS uid" }
    ∧ (∀ okFsuid : Bool, localMountCreds false false okFsuid bodyErr c0 =
        { during := none, final := c0, result := some "failed to elevate privileges" }) :=
  ⟨rfl, rfl, rfl, fun _ => rfl⟩

/-- Helper: OR-ing in the lowest bit makes the lowest bit set. -/
theorem or_one_and_one (n : Nat) : (n ||| 1) &&& 1 = 1 := by
  have h := Nat.testBit_lor n 1 0
  rw [Nat.testBit_zero, Nat.testBit_zero, Nat.testBit_zero] at h
  rw [Nat.and_one_is_mod]
  rcases Nat.mod_two_eq_zero_or_one (n ||| 1) with h2 | h2
  · simp [h2] at h
  · exact h2

/-- C6: for every loop-backed image mount, mountImage sets FlagsAutoClear in the loop Info64 flags, and it sets FlagsReadOnly and attaches the file O_RDONLY exactly when the converted mount flags include MS_RDONLY; the literal test flags AND MS_RDONLY == 1 is equivalent to the non-zero test because MS_RDONLY equals 1. -/
theorem mountImage_loop_flags (flags offset sizelimit : Nat) :
    ((mountImageSetup flags offset sizelimit).info.flags &&& FlagsAutoClear = FlagsAutoClear)
    ∧ (((mountImageSetup flags offset sizelimit).info.flags &&& FlagsReadOnly ≠ 0
        ∧ (mountImageSetup flags offset sizelimit).attachFlag = O_RDONLY)
       ↔ flags &&& MS_RDONLY ≠ 0)
    ∧ ((flags &&& MS_RDONLY = 1) ↔ (flags &&& MS_RDONLY ≠ 0)) := by
  have hmod : flags &&& MS_RDONLY = 0 ∨ flags &&& MS_RDONLY = 1 := by
    unfold MS_RDONLY
    rw [Nat.and_one_is_mod]
    exact Nat.mod_two_eq_zero_or_one flags
  rcases hmod with h | h <;>
    simp [mountImageSetup, h, FlagsAutoClear, FlagsReadOnly, O_RDONLY, O_RDWR]
  decide

/-- C7: when home mounting is enabled and the requested home source differs from the password-database home of the real user, and user bind control is disabled, addHomeMount returns an error, and in the create sequence MountAll is never executed. -/
theorem addHomeMount_custom_home_denied (cfg : HomeConfig) (rest : Except String Unit)
    (pre post : List (Except String Unit)) (ma : Except String Unit) (d : String)
    (h1 : cfg.noHome = false) (h2 : cfg.mountHome = true) (h3 : cfg.pwDir = some d)
    (h4 : d ≠ cfg.home) (h5 : cfg.userBindControl = false) :
    addHomeMountGate cfg rest =
      Except.error "Not mounting user requested home: user bind control is disallowed"
    ∧ (createRun pre (addHomeMountGate cfg rest) post ma).2 = false := by
  have hgate : addHomeMountGate cfg rest =
      Except.error "Not mounting user requested home: user bind control is disallowed" := by
    unfold addHomeMountGate
    rw [if_neg (by simp [h1]), if_neg (by simp [h2]), h3]
    simp only []
    rw [if_pos ⟨h4, h5⟩]
  refine ⟨hgate, ?_⟩
  unfold createRun
  cases hp : runSteps pre with
  | error e => rfl
  | ok u =>
    cases u
    rw [hgate]

/-- Witness for C7: a concrete configuration with a custom home and user bind control disabled. -/
theorem addHomeMount_custom_home_denied_witness :
    addHomeMountGate
        { noHome := false, mountHome := true, pwDir := some "/home/alice",
          home := "/custom/home", userBindControl := false } (Except.ok ()) =
      Except.error "Not mounting user requested home: user bind control is disallowed"
    ∧ (createRun []
        (addHomeMountGate
          { noHome := false, mountHome := true, pwDir := some "/home/alice",
            home := "/custom/home", userBindControl := false } (Except.ok ()))
        [] (Except.ok ())).2 = false :=
  addHomeMount_custom_home_denied _ _ [] [] _ "/home/alice" rfl rfl rfl (by decide) rfl

/-- C8: a path that stats as a directory makes loadImage force the writable argument to false before initializing the image descriptor, whatever the caller requested. -/
theorem loadImage_directory_never_writable (fi : GoFileInfo) (writable : Bool)
    (h : fi.isDir = true) :
    loadImageInitWritable (some fi) writable = some false := by
  unfold loadImageInitWritable
  simp [h]

/-- Witness for C8: a directory stat with writable requested still yields writable false. -/
theorem loadImage_directory_never_writable_witness :
    loadImageInitWritable (some { isDir := true }) true = some false :=
  loadImage_directory_never_writable { isDir := true } true rfl

/-- C9: evaluation at the failing input. A user bind entry with an invalid third field is still added to the mount list (with unchanged flags), although the code's own warning says it will not be mounted. -/
theorem addUserbindsMount_invalid_option_still_added :
    addUserbindsMount (fun s => some s) true ["/a:/b:bogus"] =
      [{ src := "/a", dst := "/b", flags := userbindsFlags }]
    ∧ userbindsFlags &&& MS_RDONLY = 0 := by
  decide

/-- Helper: one loop iteration never clears the MS_RDONLY bit of the shared flags variable. -/
theorem processUserbind_fst_rdonly (abs : String → Option String) (flags : Nat) (b : String)
    (h : flags &&& MS_RDONLY ≠ 0) : (processUserbind abs flags b).1 &&& MS_RDONLY ≠ 0 := by
  unfold processUserbind
  split
  · simpa using h
  · split
    · show (flags ||| MS_RDONLY, _).1 &&& MS_RDONLY ≠ 0
      unfold MS_RDONLY
      simp [or_one_and_one]
    · simpa using h

/-- Helper: a record added by the loop carries the value of the shared flags variable at its iteration, so once its MS_RDONLY bit is set every added record has it. -/
theorem addUserbindsLoop_rdonly (abs : String → Option String) :
    ∀ (bs : List String) (flags : Nat), flags &&& MS_RDONLY ≠ 0 →
      ∀ r ∈ addUserbindsLoop abs flags bs, r.flags &&& MS_RDONLY ≠ 0 := by
  intro bs
  induction bs with
  | nil =>
    intro flags h r hr
    simp [addUserbindsLoop] at hr
  | cons b rest ih =>
    intro flags h r hr
    have hf2 := processUserbind_fst_rdonly abs flags b h
    unfold addUserbindsLoop at hr
    cases hp : processUserbind abs flags b with
    | mk f2 orec =>
      rw [hp] at hr hf2
      cases orec with
      | none => exact ih f2 hf2 r hr
      | some r0 =>
        have hr0 : r0.flags = f2 := by
          unfold processUserbind at hp
          split at hp
          · simp at hp
          · split at hp <;>
              (simp only [Prod.mk.injEq, Option.some.injEq] at hp;
               rw [← hp.2];
               exact hp.1)
        rw [List.mem_cons] at hr
        cases hr with
        | inl he => rw [he, hr0]; exact hf2
        | inr hm => exact ih f2 hf2 r hm

/-- Helper: the entry loop over an appended list is the loop over the first part followed by the loop over the second part started at the accumulated flags value. -/
theorem addUserbindsLoop_append (abs : String → Option String) (xs ys : List String) :
    ∀ flags, addUserbindsLoop abs flags (xs ++ ys) =
      addUserbindsLoop abs flags xs
        ++ addUserbindsLoop abs (flagsAfterUserbinds abs flags xs) ys := by
  induction xs with
  | nil => intro flags; rfl
  | cons x rest ih =>
    intro flags
    show addUserbindsLoop abs flags (x :: (rest ++ ys)) = _
    cases hp : processUserbind abs flags x with
    | mk f2 orec =>
      cases orec <;>
        simp [addUserbindsLoop, flagsAfterUserbinds, hp, ih f2]

/-- C10: the flags variable of addUserbindsMount is shared across the entry loop, so in any bind list, once an entry carrying the ro option has been processed, every subsequently added entry also carries MS_RDONLY, whether unmarked or marked rw: the full run decomposes into the records before the ro entry and the records from it on, and each of the latter has MS_RDONLY set. -/
theorem addUserbinds_ro_option_leaks (abs : String → Option String)
    (pre : List String) (b : String) (post : List String)
    (hlen : (goSplit b ':').length > 2) (hro : (goSplit b ':').getD 2 "" = "ro")
    (habs : ∃ src, abs ((goSplit b ':').headD "") = some src) :
    addUserbindsMount abs true (pre ++ b :: post) =
      addUserbindsLoop abs userbindsFlags pre
        ++ addUserbindsLoop abs (flagsAfterUserbinds abs userbindsFlags pre) (b :: post)
    ∧ ∀ r ∈ addUserbindsLoop abs (flagsAfterUserbinds abs userbindsFlags pre) (b :: post),
        r.flags &&& MS_RDONLY ≠ 0 := by
  obtain ⟨src, hsrc⟩ := habs
  constructor
  · unfold addUserbindsMount
    rw [if_neg (by simp), if_neg (by simp)]
    exact addUserbindsLoop_append abs pre (b :: post) userbindsFlags
  · intro r hr
    have hpv : processUserbind abs (flagsAfterUserbinds abs userbindsFlags pre) b =
        (flagsAfterUserbinds abs userbindsFlags pre ||| MS_RDONLY,
         some { src := src, dst := (goSplit b ':').getD 1 src,
                flags := flagsAfterUserbinds abs userbindsFlags pre ||| MS_RDONLY }) := by
      unfold processUserbind
      rw [hsrc]
      exact if_pos ⟨hlen, hro⟩
    unfold addUserbindsLoop at hr
    rw [hpv] at hr
    have hbit : (flagsAfterUserbinds abs userbindsFlags pre ||| MS_RDONLY)
        &&& MS_RDONLY ≠ 0 := by
      unfold MS_RDONLY
      simp [or_one_and_one]
    simp only [List.mem_cons] at hr
    cases hr with
    | inl he => rw [he]; exact hbit
    | inr hm =>
      exact addUserbindsLoop_rdonly abs post
        (flagsAfterUserbinds abs userbindsFlags pre ||| MS_RDONLY) hbit r hm

/-- Witness for C10: in the list with entries /p:/q then /a:/b:ro then /c:/d:rw, the rw-marked entry after the ro entry is added with MS_RDONLY set. -/
theorem addUserbinds_ro_option_leaks_witness :
    ({ src := "/c", dst := "/d", flags := userbindsFlags ||| MS_RDONLY } : BindRecord).flags
      &&& MS_RDONLY ≠ 0 :=
  (addUserbinds_ro_option_leaks (fun s => some s) ["/p:/q"] "/a:/b:ro" ["/c:/d:rw"]
      (by decide) (by decide) ⟨"/a", rfl⟩).2 _ (by decide)
